import Mathlib

/-!
Verification of the SubredditMiner data-management layer.

The embedding follows `src/reddit_agent/services.py` and
`src/reddit_agent/models.py`.  External collaborators (the LLM provider,
the scraping provider) are modelled by their observable outcome: an
`Except Unit _` value that is either the text the provider returned or a
raised exception.  The result of Python's `float(...)` is modelled by
`PyFloat` (a finite rational, NaN, or a signed infinity) with Python's
comparison semantics, so that the clamp `min(max(score, 0), 1)` behaves
exactly as in the source, NaN included; the clamping and the defaults are
taken verbatim from the source.
-/

namespace SubredditMiner

/-! ## LLMService (services.py lines 13-79) -/

/--
`LLMService.extract_topics` (services.py lines 26-48).  The provider call
`self.model.generate_content(prompt)` is modelled by its outcome
`provider : Except Unit String` (the response text, or a raised
exception).  On success the code splits the text on commas and strips
each piece; on any exception it returns `[query_text]`.
-/
def extract_topics (query_text : String) (provider : Except Unit String) : List String :=
  match provider with
  | Except.ok text => (text.splitOn (",")).map (fun t => t.trim)
  | Except.error _ => [query_text]

/--
`LLMService.score_community_relevance` (services.py lines 50-79),
restricted to finite parse results.  The provider call together with the
`float(response.text.strip())` parse is modelled by
`provider : Except Unit (Option ℚ)`:
`Except.error _` is a raised provider exception, `Except.ok Option.none`
is a response whose text is not numeric (the `float` call raises and is
caught by the same `except`), and `Except.ok (Option.some x)` is a
response parsing to the finite number `x`.  On such a response the code
returns `min(max(score, 0), 1)`; on any exception it returns `0.5`.
This restricted model omits the non-finite parses (`float` also accepts
texts such as NaN and the infinities without raising); the full model
covering those is `score_community_relevance_float` below.
-/
def score_community_relevance (provider : Except Unit (Option ℚ)) : ℚ :=
  match provider with
  | Except.ok (Option.some score) => min (max score 0) 1
  | Except.ok Option.none => 1/2
  | Except.error _ => 1/2

/-- A Python float as produced by a successful `float(...)` parse: a
finite value (modelled as a rational), NaN, or a signed infinity. -/
inductive PyFloat where
  | num : ℚ → PyFloat
  | nan : PyFloat
  | inf : PyFloat
  | neg_inf : PyFloat
deriving DecidableEq, Repr

/-- Python's `<` on floats: every comparison involving NaN is false. -/
def pyLt : PyFloat → PyFloat → Bool
  | PyFloat.nan, _ => false
  | _, PyFloat.nan => false
  | PyFloat.num a, PyFloat.num b => decide (a < b)
  | PyFloat.num _, PyFloat.inf => true
  | PyFloat.num _, PyFloat.neg_inf => false
  | PyFloat.inf, _ => false
  | PyFloat.neg_inf, PyFloat.neg_inf => false
  | PyFloat.neg_inf, _ => true

/-- Python's two-argument `max`: returns `b` when `b > a`, else `a` (so
`max(nan, x)` returns NaN, since no comparison with NaN holds). -/
def pyMax (a b : PyFloat) : PyFloat :=
  if pyLt a b then b else a

/-- Python's two-argument `min`: returns `b` when `b < a`, else `a` (so
`min(nan, x)` returns NaN, since no comparison with NaN holds). -/
def pyMin (a b : PyFloat) : PyFloat :=
  if pyLt b a then b else a

/--
`LLMService.score_community_relevance` (services.py lines 50-79), full
model over Python floats.  `Except.error _` is a raised provider
exception, `Except.ok Option.none` a response whose text `float` cannot
parse (the raise is caught by the same `except`), and
`Except.ok (Option.some v)` a successful parse — which `float` also
produces for the texts NaN and the infinities.  On a successful parse the
code returns `min(max(score, 0), 1)` with Python's `min`/`max`; on any
exception it returns `0.5`.
-/
def score_community_relevance_float (provider : Except Unit (Option PyFloat)) : PyFloat :=
  match provider with
  | Except.ok (Option.some score) => pyMin (pyMax score (PyFloat.num 0)) (PyFloat.num 1)
  | Except.ok Option.none => PyFloat.num (1/2)
  | Except.error _ => PyFloat.num (1/2)

/-- Membership of a Python float in the interval `[0, 1]`: NaN and the
infinities are outside it. -/
def pyInUnitInterval : PyFloat → Bool
  | PyFloat.num x => decide (0 ≤ x) && decide (x ≤ 1)
  | _ => false

/-! ## RedditScraperService (services.py lines 82-121) -/

/-- A Python dictionary value as it appears in the raw post data. -/
inductive PyVal where
  | none : PyVal
  | int : Int → PyVal
  | str : String → PyVal
deriving DecidableEq, Repr

/-- Python `d.get(k)`: the stored value, or `None` when the key is absent.
A dictionary is modelled as a function from keys to `Option PyVal`,
`Option.none` meaning the key is absent. -/
def dictGet (d : String → Option PyVal) (k : String) : PyVal :=
  (d k).getD PyVal.none

/-- Python `d.get(k, default)`: the stored value, or `default` when the
key is absent. -/
def dictGetD (d : String → Option PyVal) (k : String) (dflt : PyVal) : PyVal :=
  (d k).getD dflt

/--
`RedditScraperService.parse_reddit_post` (services.py lines 88-107).
Returns the reshaped dictionary as an association list in the order the
source constructs it.
-/
def parse_reddit_post (post_data : String → Option PyVal) : List (String × PyVal) :=
  [ (("post_id" : String), dictGet post_data ("id")),
    (("title" : String), dictGet post_data ("title")),
    (("content" : String), dictGet post_data ("selftext")),
    (("author" : String), dictGet post_data ("author")),
    (("upvotes" : String), dictGetD post_data ("score") (PyVal.int 0)),
    (("comments_count" : String), dictGetD post_data ("num_comments") (PyVal.int 0)),
    (("post_url" : String), dictGet post_data ("url")) ]

/-! ## Theorems for the service layer -/

/--
Claim C1, evaluated at the failing input: the claim (and the function's
own docstring together with its `Ensure between 0 and 1` comment) demand
a score in `[0,1]` for every scoring input, but when the provider's
response text is NaN — which `float` parses successfully — the clamp
`min(max(score, 0), 1)` at services.py line 76 returns NaN, because every
comparison with NaN is false, so the returned score is not in `[0,1]`.
-/
theorem score_community_relevance_nan_escapes_clamp :
    score_community_relevance_float (Except.ok (Option.some PyFloat.nan)) = PyFloat.nan
    ∧ pyInUnitInterval
        (score_community_relevance_float (Except.ok (Option.some PyFloat.nan))) = false := by
  exact ⟨rfl, rfl⟩

/--
Claim C2: whenever the provider call inside `extract_topics` fails
(raises), `extract_topics` returns the single-element list containing the
original query text; the provider error is never propagated (the result
is a total value, not an exception).
-/
theorem extract_topics_fallback :
    ∀ (query_text : String) (e : Unit),
      extract_topics query_text (Except.error e) = [query_text] := by
  intro query_text e
  rfl

/--
Claim C3: when the scoring call fails — the provider raises, or the
response text is non-numeric so the `float` parse raises —
`score_community_relevance` returns the neutral default `0.5` instead of
raising.
-/
theorem score_community_relevance_failure_default :
    (∀ e : Unit, score_community_relevance (Except.error e) = 1/2)
    ∧ score_community_relevance (Except.ok Option.none) = 1/2 := by
  exact ⟨fun e => rfl, rfl⟩

/--
Claim C10: for every input dictionary `d`, `parse_reddit_post d` is a
dictionary with exactly the keys `post_id, title, content, author,
upvotes, comments_count, post_url`, taken from the keys `id, title,
selftext, author, score, num_comments, url` of `d` respectively; `upvotes`
and `comments_count` are `0` when the source key is absent and the other
five values are `None` when their source key is absent.
-/
theorem parse_reddit_post_shape :
    ∀ d : String → Option PyVal,
      (parse_reddit_post d).map Prod.fst =
        [("post_id" : String), "title", "content", "author", "upvotes",
         "comments_count", "post_url"]
      ∧ (parse_reddit_post d).lookup ("post_id") = Option.some ((d ("id")).getD PyVal.none)
      ∧ (parse_reddit_post d).lookup ("title") = Option.some ((d ("title")).getD PyVal.none)
      ∧ (parse_reddit_post d).lookup ("content") = Option.some ((d ("selftext")).getD PyVal.none)
      ∧ (parse_reddit_post d).lookup ("author") = Option.some ((d ("author")).getD PyVal.none)
      ∧ (parse_reddit_post d).lookup ("upvotes") = Option.some ((d ("score")).getD (PyVal.int 0))
      ∧ (parse_reddit_post d).lookup ("comments_count") =
          Option.some ((d ("num_comments")).getD (PyVal.int 0))
      ∧ (parse_reddit_post d).lookup ("post_url") = Option.some ((d ("url")).getD PyVal.none)
      ∧ (d ("id") = Option.none → (parse_reddit_post d).lookup ("post_id") = Option.some PyVal.none)
      ∧ (d ("score") = Option.none →
          (parse_reddit_post d).lookup ("upvotes") = Option.some (PyVal.int 0))
      ∧ (d ("num_comments") = Option.none →
          (parse_reddit_post d).lookup ("comments_count") = Option.some (PyVal.int 0)) := by
  intro d
  refine ⟨rfl, ?_, ?_, ?_, ?_, ?_, ?_, ?_, ?_, ?_, ?_⟩ <;>
    simp [parse_reddit_post, List.lookup, dictGet, dictGetD]
  · intro h; rw [h]; rfl
  · intro h; rw [h]; rfl
  · intro h; rw [h]; rfl

/--
Witness for C10: the theorem applied to the empty dictionary, where every
source key is absent, discharging each absence hypothesis there.
-/
theorem parse_reddit_post_shape_witness :
    ((fun _ => Option.none : String → Option PyVal) ("id") = Option.none
      ∧ (parse_reddit_post (fun _ => Option.none)).lookup ("post_id") = Option.some PyVal.none)
    ∧ ((fun _ => Option.none : String → Option PyVal) ("score") = Option.none
      ∧ (parse_reddit_post (fun _ => Option.none)).lookup ("upvotes") = Option.some (PyVal.int 0))
    ∧ ((fun _ => Option.none : String → Option PyVal) ("num_comments") = Option.none
      ∧ (parse_reddit_post (fun _ => Option.none)).lookup ("comments_count") =
          Option.some (PyVal.int 0)) :=
  ⟨⟨rfl, (parse_reddit_post_shape (fun _ => Option.none)).2.2.2.2.2.2.2.2.1 rfl⟩,
   ⟨rfl, (parse_reddit_post_shape (fun _ => Option.none)).2.2.2.2.2.2.2.2.2.1 rfl⟩,
   ⟨rfl, (parse_reddit_post_shape (fun _ => Option.none)).2.2.2.2.2.2.2.2.2.2 rfl⟩⟩

/-! ## Data model (models.py) -/

/--
`RedditCommunity` (models.py lines 39-63): the fields of a persisted
community row.  The owning `Query` foreign key is modelled by an opaque
numeric id.
-/
structure RedditCommunity where
  query : Nat
  name : String
  description : String
  url : String
  members_count : Int
  relevance_score : ℚ
  is_trackable : Bool
deriving DecidableEq, Repr

/--
Modelled from the spec: the insertion path into the Community Registry is
not under src/ (src/ holds only the `unique_together = ['query', 'name']`
declaration, models.py line 55).  Per §4.2 of the spec, duplicates (same
name within the same Query) are discarded at insertion, keeping the
first-seen record.
-/
def insertCommunity (s : List RedditCommunity) (c : RedditCommunity) : List RedditCommunity :=
  if s.any (fun x => x.query == c.query && x.name == c.name) then s else s ++ [c]

/-- The `(query, name)` key of each persisted community row, in row order. -/
def communityKeys (s : List RedditCommunity) : List (Nat × String) :=
  s.map (fun c => (c.query, c.name))

lemma communityKeys_append (s : List RedditCommunity) (c : RedditCommunity) :
    communityKeys (s ++ [c]) = communityKeys s ++ [(c.query, c.name)] := by
  simp [communityKeys]

lemma insertCommunity_keys_nodup (s : List RedditCommunity) (c : RedditCommunity)
    (h : (communityKeys s).Nodup) : (communityKeys (insertCommunity s c)).Nodup := by
  unfold insertCommunity
  by_cases hdup : s.any (fun x => x.query == c.query && x.name == c.name) = true
  · simp [hdup, h]
  · rw [if_neg hdup, communityKeys_append]
    rw [List.nodup_append]
    refine ⟨h, List.nodup_singleton _, ?_⟩
    intro k hk hk1
    rcases List.mem_singleton.mp hk1 with rfl
    rcases List.mem_map.mp hk with ⟨x, hx, hxk⟩
    apply hdup
    rw [List.any_eq_true]
    refine ⟨x, hx, ?_⟩
    have h1 : x.query = c.query := congrArg Prod.fst hxk
    have h2 : x.name = c.name := congrArg Prod.snd hxk
    simp [h1, h2]

lemma foldl_insertCommunity_nodup (cands : List RedditCommunity) :
    ∀ s : List RedditCommunity, (communityKeys s).Nodup →
      (communityKeys (List.foldl insertCommunity s cands)).Nodup := by
  induction cands with
  | nil => intro s h; exact h
  | cons c cs ih =>
      intro s h
      exact ih (insertCommunity s c) (insertCommunity_keys_nodup s c h)

/--
Claim C4: no two persisted communities under the same query share a name:
inserting a community whose `(query, name)` key is already present is
rejected, keeping the first-seen record unchanged, and after any sequence
of insertions starting from the empty registry the `(query, name)` keys
are pairwise distinct.
-/
theorem community_name_unique_per_query :
    (∀ (s : List RedditCommunity) (c : RedditCommunity),
      s.any (fun x => x.query == c.query && x.name == c.name) = true →
        insertCommunity s c = s)
    ∧ (∀ cands : List RedditCommunity,
        (communityKeys (List.foldl insertCommunity [] cands)).Nodup) := by
  constructor
  · intro s c h
    unfold insertCommunity
    rw [if_pos h]
  · intro cands
    exact foldl_insertCommunity_nodup cands [] (by simp [communityKeys])

/-- A sample community row used to instantiate witnesses. -/
def sampleCommunity : RedditCommunity :=
  { query := 0, name := "r/python", description := "", url := "",
    members_count := 0, relevance_score := 0, is_trackable := false }

/-- A second sample row sharing `sampleCommunity`'s `(query, name)` key
but differing in every other field. -/
def sampleCommunityDup : RedditCommunity :=
  { query := 0, name := "r/python", description := "other", url := "u",
    members_count := 5, relevance_score := 1, is_trackable := true }

/--
Witness for C4: inserting a second row with the already-present key
`(0, "r/python")` leaves the registry unchanged, keeping the first-seen
record.
-/
theorem community_name_unique_per_query_witness :
    ([sampleCommunity].any
        (fun x => x.query == sampleCommunityDup.query && x.name == sampleCommunityDup.name) = true)
    ∧ insertCommunity [sampleCommunity] sampleCommunityDup = [sampleCommunity] :=
  ⟨by decide,
   community_name_unique_per_query.1 [sampleCommunity] sampleCommunityDup (by decide)⟩

/--
`RedditPost` (models.py lines 66-91): the fields of a persisted post row.
`post_id` is declared `unique=True` (models.py line 73), globally across
all communities.
-/
structure RedditPost where
  community : Nat
  post_id : String
  title : String
  content : String
  author : String
  upvotes : Int
  comments_count : Int
  post_url : String
deriving DecidableEq, Repr

/--
Modelled from the spec: the post-ingestion path is not under src/ (src/
holds only the `post_id = CharField(unique=True)` declaration, models.py
line 73).  Per §3 of the spec, post_id uniqueness is the dedup key across
all scraping runs: re-ingesting an already-seen post_id is a no-op.
-/
def insertPost (s : List RedditPost) (p : RedditPost) : List RedditPost :=
  if s.any (fun x => x.post_id == p.post_id) then s else s ++ [p]

/-- The `post_id` of each persisted post row, in row order. -/
def postIds (s : List RedditPost) : List String :=
  s.map (fun p => p.post_id)

lemma insertPost_ids_nodup (s : List RedditPost) (p : RedditPost)
    (h : (postIds s).Nodup) : (postIds (insertPost s p)).Nodup := by
  unfold insertPost
  by_cases hdup : s.any (fun x => x.post_id == p.post_id) = true
  · simp [hdup, h]
  · rw [if_neg hdup]
    have happ : postIds (s ++ [p]) = postIds s ++ [p.post_id] := by simp [postIds]
    rw [happ, List.nodup_append]
    refine ⟨h, List.nodup_singleton _, ?_⟩
    intro k hk hk1
    rcases List.mem_singleton.mp hk1 with rfl
    rcases List.mem_map.mp hk with ⟨x, hx, hxk⟩
    apply hdup
    rw [List.any_eq_true]
    exact ⟨x, hx, by simp [hxk]⟩

lemma foldl_insertPost_nodup (ps : List RedditPost) :
    ∀ s : List RedditPost, (postIds s).Nodup →
      (postIds (List.foldl insertPost s ps)).Nodup := by
  induction ps with
  | nil => intro s h; exact h
  | cons p rest ih =>
      intro s h
      exact ih (insertPost s p) (insertPost_ids_nodup s p h)

/--
Claim C5: `post_id` is a global dedup key over persisted posts:
re-ingesting a post whose `post_id` already exists leaves the store
unchanged (never creates a second row, regardless of which community the
rows belong to), and after any sequence of ingestions starting from the
empty store the `post_id`s are pairwise distinct.
-/
theorem post_id_global_dedup :
    (∀ (s : List RedditPost) (p : RedditPost),
      s.any (fun x => x.post_id == p.post_id) = true → insertPost s p = s)
    ∧ (∀ ps : List RedditPost,
        (postIds (List.foldl insertPost [] ps)).Nodup) := by
  constructor
  · intro s p h
    unfold insertPost
    rw [if_pos h]
  · intro ps
    exact foldl_insertPost_nodup ps [] (by simp [postIds])

/-- A sample post row used to instantiate witnesses. -/
def samplePost : RedditPost :=
  { community := 0, post_id := "abc123", title := "t", content := "",
    author := "u", upvotes := 0, comments_count := 0, post_url := "" }

/-- A post with the same `post_id` as `samplePost` but a different
community, modelling a re-scrape of the same post in another run. -/
def samplePostDup : RedditPost :=
  { community := 1, post_id := "abc123", title := "t2", content := "c",
    author := "v", upvotes := 7, comments_count := 2, post_url := "p" }

/--
Witness for C5: re-ingesting a post whose `post_id` `"abc123"` already
exists — even under a different community — leaves the store unchanged.
-/
theorem post_id_global_dedup_witness :
    ([samplePost].any (fun x => x.post_id == samplePostDup.post_id) = true)
    ∧ insertPost [samplePost] samplePostDup = [samplePost] :=
  ⟨by decide, post_id_global_dedup.1 [samplePost] samplePostDup (by decide)⟩

/-! ## Query lifecycle (models.py lines 7-36, spec section 4.1) -/

/-- The `STATUS_CHOICES` of `Query` (models.py lines 12-17). -/
inductive QueryStatus where
  | pending
  | processing
  | completed
  | failed
deriving DecidableEq, Repr

/-- `completed` and `failed` are the terminal query statuses (spec section 4.1). -/
def queryTerminal : QueryStatus → Bool
  | QueryStatus.completed => true
  | QueryStatus.failed => true
  | _ => false

/--
Modelled from the spec: the code driving a `Query` through its lifecycle
is not under src/ (src/ holds only the model declaration with its
`STATUS_CHOICES`, models.py lines 12-26).  Per §4.1 of the spec the
machine is `pending → processing → \x7bcompleted, failed\x7d` and no
transition may move a terminal query to any other state; a disallowed
transition request leaves the status unchanged.
-/
def queryStep (s t : QueryStatus) : QueryStatus :=
  match s, t with
  | QueryStatus.pending, QueryStatus.processing => QueryStatus.processing
  | QueryStatus.processing, QueryStatus.completed => QueryStatus.completed
  | QueryStatus.processing, QueryStatus.failed => QueryStatus.failed
  | _, _ => s

lemma queryStep_terminal (s t : QueryStatus) (h : queryTerminal s = true) :
    queryStep s t = s := by
  cases s <;> simp [queryTerminal] at h <;> cases t <;> rfl

/--
Claim C6: once a query's status is `completed` or `failed` it never
changes again — every sequence of subsequent transition requests leaves
it unchanged.
-/
theorem query_terminal_frozen :
    ∀ (s : QueryStatus) (updates : List QueryStatus),
      queryTerminal s = true → List.foldl queryStep s updates = s := by
  intro s updates h
  induction updates with
  | nil => rfl
  | cons t rest ih =>
      rw [List.foldl_cons, queryStep_terminal s t h]
      exact ih

/--
Witness for C6: a completed query subjected to requests for `pending` and
`processing` stays `completed`.
-/
theorem query_terminal_frozen_witness :
    queryTerminal QueryStatus.completed = true
    ∧ List.foldl queryStep QueryStatus.completed
        [QueryStatus.pending, QueryStatus.processing] = QueryStatus.completed :=
  ⟨rfl, query_terminal_frozen QueryStatus.completed
          [QueryStatus.pending, QueryStatus.processing] rfl⟩

/-! ## Snapshot scheduler (models.py lines 117-146, spec section 4.4) -/

/-- The `STATUS_CHOICES` of `Snapshot` (models.py lines 122-127). -/
inductive SnapStatus where
  | pending
  | in_progress
  | completed
  | failed
deriving DecidableEq, Repr

/-- A snapshot row: its owning community id and its status. -/
structure Snapshot where
  community : Nat
  status : SnapStatus
deriving DecidableEq, Repr

/-- A snapshot is in flight when its status is `pending` or `in_progress`
(spec section 4.4). -/
def snapInFlight (st : SnapStatus) : Bool :=
  st == SnapStatus.pending || st == SnapStatus.in_progress

/-- The snapshot lifecycle edges of spec section 4.4:
`pending → in_progress → \x7bcompleted, failed\x7d`. -/
def snapTrans : SnapStatus → SnapStatus → Bool
  | SnapStatus.pending, SnapStatus.in_progress => true
  | SnapStatus.in_progress, SnapStatus.completed => true
  | SnapStatus.in_progress, SnapStatus.failed => true
  | _, _ => false

/-- True when some snapshot of community `c` is in flight. -/
def hasInFlight (s : List Snapshot) (c : Nat) : Bool :=
  s.any (fun x => x.community == c && snapInFlight x.status)

/-- Advance the status of the `i`-th snapshot to `t`, a no-op when the
index is out of range or the edge is not a lifecycle edge. -/
def advanceAt : List Snapshot → Nat → SnapStatus → List Snapshot
  | [], _, _ => []
  | x :: xs, 0, t =>
      (if snapTrans x.status t then { x with status := t } else x) :: xs
  | x :: xs, Nat.succ n, t => x :: advanceAt xs n t

/-- An atomic step against the snapshot store: a scheduling attempt for a
community, or a worker advancing one snapshot's status. -/
inductive SnapOp where
  | schedule (c : Nat)
  | advance (i : Nat) (t : SnapStatus)

/--
Modelled from the spec: the scheduler and worker code is not under src/
(src/ holds only the `Snapshot` model declaration, models.py lines
117-143).  Per §4.4/§5 of the spec, scheduling is a transactional
check-and-create: it creates one `pending` snapshot unless one for the
same community is already in flight, in which case it is a no-op; workers
move a snapshot only along the lifecycle edges.  Concurrent scheduling
attempts are modelled as arbitrary interleavings of these atomic steps.
-/
def snapStep (s : List Snapshot) : SnapOp → List Snapshot
  | SnapOp.schedule c =>
      if hasInFlight s c then s
      else s ++ [{ community := c, status := SnapStatus.pending }]
  | SnapOp.advance i t => advanceAt s i t

/-- The number of in-flight snapshots of community `c` in the store. -/
def inFlightCount : List Snapshot → Nat → Nat
  | [], _ => 0
  | x :: xs, c =>
      (if x.community == c && snapInFlight x.status then 1 else 0) + inFlightCount xs c

lemma inFlightCount_append (s : List Snapshot) (y : Snapshot) (c : Nat) :
    inFlightCount (s ++ [y]) c =
      inFlightCount s c + (if y.community == c && snapInFlight y.status then 1 else 0) := by
  induction s with
  | nil => simp [inFlightCount]
  | cons x xs ih => simp [inFlightCount, ih]; omega

lemma hasInFlight_false_count (s : List Snapshot) (c : Nat)
    (h : hasInFlight s c = false) : inFlightCount s c = 0 := by
  induction s with
  | nil => rfl
  | cons x xs ih =>
      rw [hasInFlight, List.any_cons, Bool.or_eq_false_iff] at h
      rw [inFlightCount, if_neg (by simp [h.1]), ih h.2]

lemma advanceAt_count_le (s : List Snapshot) (i : Nat) (t : SnapStatus) (c : Nat) :
    inFlightCount (advanceAt s i t) c ≤ inFlightCount s c := by
  induction s generalizing i with
  | nil => simp [advanceAt]
  | cons x xs ih =>
      cases i with
      | succ n =>
          rw [advanceAt, inFlightCount, inFlightCount]
          exact Nat.add_le_add_left (ih n) _
      | zero =>
          rw [advanceAt, inFlightCount, inFlightCount]
          apply Nat.add_le_add_right
          by_cases htr : snapTrans x.status t = true
          · rw [if_pos htr]
            cases hst : x.status <;> cases t <;>
              simp [hst, snapTrans] at htr ⊢ <;>
              simp [snapInFlight]
          · rw [if_neg htr]

lemma snapStep_preserves (s : List Snapshot) (op : SnapOp)
    (h : ∀ c, inFlightCount s c ≤ 1) :
    ∀ c, inFlightCount (snapStep s op) c ≤ 1 := by
  intro c
  cases op with
  | advance i t => exact le_trans (advanceAt_count_le s i t c) (h c)
  | schedule c0 =>
      rw [snapStep]
      by_cases hin : hasInFlight s c0 = true
      · rw [if_pos hin]; exact h c
      · rw [if_neg hin, inFlightCount_append]
        by_cases hc : (c0 == c) = true
        · have hc0 : c0 = c := eq_of_beq hc
          subst hc0
          rw [hasInFlight_false_count s c0 (Bool.eq_false_iff.mpr hin)]
          simp [snapInFlight]
        · rw [if_neg (by simp_all), Nat.add_zero]
          exact h c

lemma snapStep_foldl_preserves (ops : List SnapOp) :
    ∀ s : List Snapshot, (∀ c, inFlightCount s c ≤ 1) →
      ∀ c, inFlightCount (List.foldl snapStep s ops) c ≤ 1 := by
  induction ops with
  | nil => intro s h; exact h
  | cons op rest ih =>
      intro s h
      exact ih (snapStep s op) (snapStep_preserves s op h)

/--
Claim C7: in every state reachable by a sequence of atomic scheduling
attempts and worker status advances starting from the empty store, at
most one snapshot per community is in flight (`pending` or
`in_progress`); a scheduling attempt while one is already in flight for
the same community is a no-op.
-/
theorem snapshot_at_most_one_in_flight :
    (∀ (ops : List SnapOp) (c : Nat),
      inFlightCount (List.foldl snapStep [] ops) c ≤ 1)
    ∧ (∀ (s : List Snapshot) (c : Nat),
      hasInFlight s c = true → snapStep s (SnapOp.schedule c) = s) := by
  constructor
  · intro ops c
    exact snapStep_foldl_preserves ops [] (fun c => by simp [inFlightCount]) c
  · intro s c h
    rw [snapStep, if_pos h]

/--
Witness for C7: an attempt to schedule community `0` while its snapshot
is already pending is a no-op.
-/
theorem snapshot_at_most_one_in_flight_witness :
    hasInFlight [Snapshot.mk 0 SnapStatus.pending] 0 = true
    ∧ snapStep [Snapshot.mk 0 SnapStatus.pending] (SnapOp.schedule 0) =
        [Snapshot.mk 0 SnapStatus.pending] :=
  ⟨by decide,
   snapshot_at_most_one_in_flight.2 [Snapshot.mk 0 SnapStatus.pending] 0 (by decide)⟩

/-! ## Tracking registry (models.py lines 94-114, spec section 4.3) -/

/--
`TrackableItem` (models.py lines 94-114): the fields of a tracking row.
`scrape_frequency_hours` is a plain `IntegerField(default=24)` (models.py
line 104) — the model declares no positivity constraint on it.
-/
structure TrackableItem where
  community : Nat
  user : Nat
  tracking_enabled : Bool
  last_scraped_at : Option Nat
  scrape_frequency_hours : Int
deriving DecidableEq, Repr

/--
Creation of a `TrackableItem` row with the field defaults declared in
models.py lines 102-104: `tracking_enabled` defaults to `True`,
`last_scraped_at` to null, and `scrape_frequency_hours` to `24` when no
explicit frequency is supplied; an explicitly supplied frequency is
stored as given, the field being a plain `IntegerField`.
-/
def mkTrackableItem (community user : Nat) (freq : Option Int) : TrackableItem :=
  { community := community, user := user, tracking_enabled := true,
    last_scraped_at := Option.none, scrape_frequency_hours := freq.getD 24 }

/-- The error of the promote operation (spec section 4.3). -/
inductive PromoteError where
  | alreadyTracked
deriving DecidableEq, Repr

/--
Modelled from the spec: the promote operation is not under src/ (src/
holds only the `TrackableItem` declaration with its
`unique_together = ['community', 'user']`, models.py line 108).  Per §4.3
of the spec, `promote(community, user, frequency_hours)` fails with
`AlreadyTracked` when a row for that community+user pair already exists,
and otherwise creates exactly one row with `tracking_enabled=true` and
`last_scraped_at=null`.
-/
def promote (items : List TrackableItem) (community user : Nat) (frequency_hours : Int) :
    Except PromoteError (List TrackableItem) :=
  if items.any (fun x => x.community == community && x.user == user) then
    Except.error PromoteError.alreadyTracked
  else
    Except.ok (items ++ [mkTrackableItem community user (Option.some frequency_hours)])

/--
Claim C8: `promote` fails with `AlreadyTracked` exactly when a
`TrackableItem` for the community+user pair already exists, and otherwise
appends exactly one new row whose `tracking_enabled` is `true` and whose
`last_scraped_at` is null.
-/
theorem promote_already_tracked_or_creates :
    ∀ (items : List TrackableItem) (c u : Nat) (f : Int),
      (items.any (fun x => x.community == c && x.user == u) = true →
        promote items c u f = Except.error PromoteError.alreadyTracked)
      ∧ (items.any (fun x => x.community == c && x.user == u) = false →
        promote items c u f =
          Except.ok (items ++
            [{ community := c, user := u, tracking_enabled := true,
               last_scraped_at := Option.none, scrape_frequency_hours := f }])) := by
  intro items c u f
  constructor
  · intro h
    rw [promote, if_pos h]
  · intro h
    rw [promote, if_neg (by simp [h])]
    rfl

/--
Witness for C8: promoting community `0` for user `0` on an empty registry
creates the single row, and promoting the same pair again fails with
`AlreadyTracked`.
-/
theorem promote_already_tracked_or_creates_witness :
    (([] : List TrackableItem).any (fun x => x.community == 0 && x.user == 0) = false
      ∧ promote [] 0 0 24 =
          Except.ok [{ community := 0, user := 0, tracking_enabled := true,
                       last_scraped_at := Option.none, scrape_frequency_hours := 24 }])
    ∧ ([mkTrackableItem 0 0 (Option.some 24)].any
          (fun x => x.community == 0 && x.user == 0) = true
      ∧ promote [mkTrackableItem 0 0 (Option.some 24)] 0 0 24 =
          Except.error PromoteError.alreadyTracked) :=
  ⟨⟨rfl, (promote_already_tracked_or_creates [] 0 0 24).2 rfl⟩,
   ⟨by decide,
    (promote_already_tracked_or_creates [mkTrackableItem 0 0 (Option.some 24)] 0 0 24).1
      (by decide)⟩⟩

/--
Counterexample for C9: the claim says every `TrackableItem` has a
positive `scrape_frequency_hours`, but `scrape_frequency_hours` is a
plain `IntegerField` (models.py line 104) with no positivity constraint:
a row created with an explicit frequency of `-1` stores `-1`, which is
not positive.
-/
theorem scrape_frequency_positive_counterexample :
    (mkTrackableItem 0 0 (Option.some (-1))).scrape_frequency_hours = -1
    ∧ ¬(0 < (mkTrackableItem 0 0 (Option.some (-1))).scrape_frequency_hours) := by
  constructor
  · rfl
  · decide

/--
Claim C9 (amended): a `TrackableItem` created without an explicit
frequency has `scrape_frequency_hours = 24`, and an explicitly supplied
frequency is stored as given — the model imposes no positivity
constraint on the field.
-/
theorem scrape_frequency_default_24 :
    ∀ (c u : Nat),
      (mkTrackableItem c u Option.none).scrape_frequency_hours = 24
      ∧ ∀ v : Int, (mkTrackableItem c u (Option.some v)).scrape_frequency_hours = v := by
  intro c u
  exact ⟨rfl, fun v => rfl⟩

end SubredditMiner
